import Mathlib

/-!
Verification of the instance-lifecycle core of the vLLM Manager control
plane.  The definitions below are shallow embeddings of the server-side
JavaScript: the SQLite tables become lists of rows, each Express handler
or service method becomes a pure function from the database state (plus
the outcomes of its external calls, which are passed in as parameters)
to the next database state and its observable result.
-/

set_option maxRecDepth 10000

namespace VllmManager

/-- A row of the `instances` table (vLLM instances). -/
structure InstanceRow where
  id : String
  name : String
  model_name : String
  port : Nat
  container_id : Option String
  status : String
  api_key : Option String
  gpu_id : Option String
  deriving Repr, DecidableEq

/-- A row of the `ollama_instances` table. -/
structure OllamaRow where
  id : String
  name : String
  port : Nat
  container_id : Option String
  status : String
  api_key : Option String
  deriving Repr, DecidableEq

/-- A row of the `allocated_ports` table (port reservations). -/
structure PortRow where
  port : Nat
  instance_id : String
  deriving Repr, DecidableEq

/-- A row of the `ollama_models` table (model records of an Ollama instance). -/
structure ModelRow where
  id : String
  instance_id : String
  name : String
  status : String
  size : Option Nat
  digest : Option String
  modified_at : Option String
  deriving Repr, DecidableEq

/-- The SQLite database state: the four tables the core mutates. -/
structure Store where
  instances : List InstanceRow
  ollama_instances : List OllamaRow
  allocated_ports : List PortRow
  ollama_models : List ModelRow
  deriving Repr, DecidableEq

/-- The empty database. -/
def Store.empty : Store := ⟨[], [], [], []⟩

/-! ## Port Allocator (`server/services/portService.js`) -/

/-- Constant `MIN_PORT` from `PortService`'s constructor. -/
def MIN_PORT : Nat := 8001

/-- Constant `MAX_PORT` from `PortService`'s constructor. -/
def MAX_PORT : Nat := 9000

/-- The `while (availablePort <= this.MAX_PORT)` scan of `allocatePort`:
the first port from `MIN_PORT` upward (`List.range' MIN_PORT` lists
`MIN_PORT, MIN_PORT+1, ...`) that is not among the already allocated
ports, or `none` when the whole range is taken. -/
def findAvailablePort (allocatedPorts : List Nat) : Option Nat :=
  (List.range' MIN_PORT (MAX_PORT + 1 - MIN_PORT)).find?
    (fun p => !(allocatedPorts.contains p))

/-- Embedding of `PortService.allocatePort(instanceId)`: reads every `port` of
`allocated_ports`, scans for the first free port in range, inserts the
reservation row and returns the port; rejects with `'No available
ports'` (inserting nothing) when the range is exhausted. -/
def allocatePort (db : Store) (instanceId : String) : Except String (Nat × Store) :=
  match findAvailablePort (db.allocated_ports.map (·.port)) with
  | none => .error "No available ports"
  | some availablePort =>
      .ok (availablePort,
        { db with allocated_ports :=
            db.allocated_ports ++ [⟨availablePort, instanceId⟩] })

/-- Embedding of `PortService.releasePort(port)`: deletes every reservation row with
that port; resolves `true` when at least one row was deleted. -/
def releasePort (db : Store) (port : Nat) : Bool × Store :=
  let remaining := db.allocated_ports.filter (fun r => r.port ≠ port)
  (remaining.length < db.allocated_ports.length,
   { db with allocated_ports := remaining })

end VllmManager

namespace VllmManager

/-! ### Facts about `find?` over `range'` used by the allocator proof -/

theorem find?_range'_some {f : Nat → Bool} {s n a : Nat}
    (h : (List.range' s n).find? f = some a) :
    f a = true ∧ s ≤ a ∧ a < s + n ∧ ∀ q, s ≤ q → q < a → f q = false := by
  induction n generalizing s with
  | zero => simp [List.range'] at h
  | succ n ih =>
      rw [List.range'_succ] at h
      by_cases hfs : f s = true
      · rw [List.find?_cons_of_pos _ hfs] at h
        injection h with h
        subst h
        exact ⟨hfs, le_refl _, by omega, fun q hq1 hq2 => absurd hq1 (by omega)⟩
      · rw [List.find?_cons_of_neg _ hfs] at h
        obtain ⟨hfa, hle, hlt, hmin⟩ := ih h
        refine ⟨hfa, by omega, by omega, fun q hq1 hq2 => ?_⟩
        rcases Nat.eq_or_lt_of_le hq1 with heq | hlt'
        · subst heq; simpa using hfs
        · exact hmin q hlt' hq2

theorem find?_range'_none {f : Nat → Bool} {s n : Nat}
    (h : ∀ q, s ≤ q → q < s + n → f q = false) :
    (List.range' s n).find? f = none := by
  rw [List.find?_eq_none]
  intro x hx
  rw [List.mem_range'] at hx
  obtain ⟨i, hi, rfl⟩ := hx
  simp [h (s + i) (by omega) (by omega)]

end VllmManager

namespace VllmManager

/-- The set of ports read by the allocator's `SELECT port FROM allocated_ports`. -/
def reservedPorts (db : Store) : List Nat := db.allocated_ports.map (·.port)

/-- Claim C2: `allocatePort(instanceId)` returns the smallest port in
`[MIN_PORT, MAX_PORT] = [8001, 9000]` not currently reserved, after
appending the reservation row `{port, instanceId}` (touching no other
table); when every port in the range is reserved it fails with
`'No available ports'` and the database is left unchanged. -/
theorem allocatePort_correct (db : Store) (iid : String) :
    (∀ p db', allocatePort db iid = .ok (p, db') →
      MIN_PORT ≤ p ∧ p ≤ MAX_PORT ∧
      p ∉ reservedPorts db ∧
      (∀ q, MIN_PORT ≤ q → q < p → q ∈ reservedPorts db) ∧
      db' = { db with allocated_ports := db.allocated_ports ++ [⟨p, iid⟩] }) ∧
    ((∀ q, MIN_PORT ≤ q → q ≤ MAX_PORT → q ∈ reservedPorts db) →
      allocatePort db iid = .error "No available ports") := by
  constructor
  · intro p db' h
    unfold allocatePort at h
    rcases hf : findAvailablePort (db.allocated_ports.map (·.port)) with _ | a
    · rw [hf] at h; exact absurd h (by simp)
    · rw [hf] at h
      simp only [Except.ok.injEq, Prod.mk.injEq] at h
      obtain ⟨hp1, hp2⟩ := h
      obtain ⟨hfa, hle, hlt, hmin⟩ := find?_range'_some hf
      subst hp1
      refine ⟨hle, by unfold MIN_PORT MAX_PORT at *; omega, ?_, ?_, hp2.symm⟩
      · intro hmem
        have hc : (db.allocated_ports.map (·.port)).contains a = true :=
          List.elem_eq_true_of_mem hmem
        rw [hc] at hfa
        simp at hfa
      · intro q hq1 hq2
        have hq := hmin q hq1 hq2
        simp only [Bool.not_eq_false'] at hq
        exact List.mem_of_elem_eq_true hq
  · intro hall
    unfold allocatePort
    have hnone : findAvailablePort (db.allocated_ports.map (·.port)) = none := by
      apply find?_range'_none
      intro q hq1 hq2
      have hq3 : q ≤ MAX_PORT := by unfold MIN_PORT MAX_PORT at *; omega
      have hmemq : q ∈ db.allocated_ports.map (·.port) := hall q hq1 hq3
      have hc : (db.allocated_ports.map (·.port)).contains q = true :=
        List.elem_eq_true_of_mem hmemq
      show (!(db.allocated_ports.map (·.port)).contains q) = false
      rw [hc]
      rfl
    rw [hnone]

/-- Witness for C2: on the empty database the first allocation hands out
port 8001 and inserts exactly its reservation row. -/
theorem allocatePort_correct_witness :
    MIN_PORT ≤ 8001 ∧ 8001 ≤ MAX_PORT ∧
    8001 ∉ reservedPorts Store.empty ∧
    (∀ q, MIN_PORT ≤ q → q < 8001 → q ∈ reservedPorts Store.empty) ∧
    ({ instances := [], ollama_instances := [],
       allocated_ports := [⟨8001, "inst-1"⟩], ollama_models := [] } : Store) =
      { Store.empty with allocated_ports :=
          Store.empty.allocated_ports ++ [⟨8001, "inst-1"⟩] } :=
  (allocatePort_correct Store.empty "inst-1").1 8001 _ rfl

end VllmManager

namespace VllmManager

/-! ## Container naming (`orphanService.parseContainerName`,
`dockerService.createVLLMContainer`'s `containerName`) -/

/-- One character of the regex class `[a-f0-9]`. -/
def isLowerHexDigit (c : Char) : Bool :=
  (97 ≤ c.toNat && c.toNat ≤ 102) || (48 ≤ c.toNat && c.toNat ≤ 57)

/-- A JavaScript `.` (dot) without the `s` flag: any character except the
line terminators `\n`, `\r`, U+2028 and U+2029. -/
def dotChar (c : Char) : Bool :=
  !(c == '\n' || c == '\r' || c.toNat == 8232 || c.toNat == 8233)

/-- The regex fragment
`[a-f0-9]{8}-[a-f0-9]{4}-[a-f0-9]{4}-[a-f0-9]{4}-[a-f0-9]{12}`:
36 characters with `-` at offsets 8, 13, 18, 23 and lowercase hex
digits everywhere else. -/
def isUuidShape (cs : List Char) : Bool :=
  cs.length == 36 &&
  (List.range 36).all (fun i =>
    if i == 8 || i == 13 || i == 18 || i == 23 then cs.getD i ' ' == '-'
    else isLowerHexDigit (cs.getD i ' '))

/-- Core of `OrphanService.parseContainerName`, which matches
`/^vllm-(.+)-([a-f0-9]{8}-…-[a-f0-9]{12})$/` and returns
`{instanceName, uuid}` or `null`.  Because the second group has fixed
length 36 and the pattern is anchored at both ends, the match is
deterministic: group 2 is the final 36 characters (which must be
uuid-shaped, preceded by `-`), and the greedy group 1 is everything
between the `vllm-` prefix and that separator (non-empty, consisting of
characters `.` can match). -/
def parseAfterPrefix (rest : List Char) : Option (String × String) :=
  if rest.length < 38 then none
  else if (rest.drop (rest.length - 37)).head? = some '-' then
    if !(rest.take (rest.length - 37)).isEmpty
        && (rest.take (rest.length - 37)).all dotChar
        && isUuidShape (rest.drop (rest.length - 37)).tail then
      some (⟨rest.take (rest.length - 37)⟩, ⟨(rest.drop (rest.length - 37)).tail⟩)
    else none
  else none

/-- Entry point of `OrphanService.parseContainerName`: checks the `vllm-`
prefix and hands the remainder to `parseAfterPrefix`. -/
def parseContainerName (containerName : String) : Option (String × String) :=
  if containerName.data.take 5 = "vllm-".data then
    parseAfterPrefix (containerName.data.drop 5)
  else none

/-- The vLLM driver's container name: `` `vllm-${name}-${id}` ``. -/
def vllmContainerName (name id : String) : String :=
  "vllm-" ++ name ++ "-" ++ id

end VllmManager

namespace VllmManager

/-! ## API-key derivation and vLLM command construction -/

/-- JavaScript `s.startsWith(pre)`, modelled on the character list. -/
def jsStartsWith (s pre : String) : Bool :=
  pre.data.isPrefixOf s.data

/-- JavaScript `s.substring(n)` (drop the first `n` characters). -/
def jsStringDrop (s : String) (n : Nat) : String :=
  ⟨s.data.drop n⟩

/-- The `sk-` prefixing shared by the create and update handlers:
`apiKey.startsWith('sk-') ? apiKey : 'sk-' + apiKey`. -/
def addSkPrefix (k : String) : String :=
  if jsStartsWith k "sk-" then k else "sk-" ++ k

/-- The `else`-ladder of the handlers' API-key derivation: use the
settings default when it is truthy, otherwise synthesize
`` `sk-localtest-${Date.now()}` `` (the clock value is the `now`
parameter). -/
def apiKeyOrDefault (defaultsApiKey : Option String) (now : String) : String :=
  match defaultsApiKey with
  | some d => if d ≠ "" then addSkPrefix d else "sk-localtest-" ++ now
  | none => "sk-localtest-" ++ now

/-- The create/update handlers' effective API key: `null` when
`requireAuth` is false; otherwise the request key (prefixed), the
settings default (prefixed), or a synthesized local-test key. -/
def effectiveApiKey (requireAuth : Bool) (apiKey defaultsApiKey : Option String)
    (now : String) : Option String :=
  if requireAuth then
    match apiKey with
    | some k => if k ≠ "" then some (addSkPrefix k)
                else some (apiKeyOrDefault defaultsApiKey now)
    | none => some (apiKeyOrDefault defaultsApiKey now)
  else none

/-- JavaScript `x || d` for an optional string: the default replaces
`null`/`undefined` and the empty string. -/
def jsOrString (o : Option String) (d : String) : String :=
  match o with
  | some s => if s = "" then d else s
  | none => d

/-- Embedding of `DockerService.createVLLMContainer`'s command array (lines 84-118).
`deviceGpuId` is `deviceConfig.gpuId` (`none` in CPU mode; it is
`some "auto"` only when a GPU was selected, so the JS guard
`selectedGPU && deviceConfig.gpuId === 'auto'` is `deviceGpuId = some
"auto"`); `numGpus` is `gpuInfo.gpus.length`.  The numeric options
arrive already stringified (`gpuMemoryUtilization.toString()` etc.). -/
def buildVllmCommand (modelName : String) (apiKey : Option String)
    (gpuMemoryUtilization maxNumSeqs : String)
    (maxContextLength : Option Nat) (trustRemoteCode : Bool)
    (quantization : Option String) (tensorParallelSize : Nat)
    (deviceGpuId : Option String) (numGpus : Nat) : List String :=
  ["--model", modelName,
   "--api-key", jsOrString apiKey "localkey",
   "--port", "8000",
   "--host", "0.0.0.0",
   "--gpu-memory-utilization", gpuMemoryUtilization,
   "--max-num-seqs", maxNumSeqs]
  ++ (match maxContextLength with
      | some v => if v > 0 then ["--max-model-len", toString v] else []
      | none => [])
  ++ (if trustRemoteCode then ["--trust-remote-code"] else [])
  ++ (match quantization with
      | some q => if q ≠ "" then ["--quantization", q] else []
      | none => [])
  ++ (if deviceGpuId == some "auto" then
        (if numGpus > 1 then
          ["--tensor-parallel-size", toString (min tensorParallelSize numGpus)]
         else [])
      else if tensorParallelSize > 1 then
        ["--tensor-parallel-size", toString tensorParallelSize]
      else [])

end VllmManager

namespace VllmManager

theorem parseAfterPrefix_roundtrip (nm u : List Char) (h1 : nm ≠ [])
    (h2 : nm.all dotChar = true) (h3 : isUuidShape u = true) :
    parseAfterPrefix (nm ++ '-' :: u) = some (⟨nm⟩, ⟨u⟩) := by
  have h36 : u.length = 36 := by
    unfold isUuidShape at h3
    rw [Bool.and_eq_true] at h3
    simpa using h3.1
  have hnm : 0 < nm.length := List.length_pos.mpr h1
  have hlen : (nm ++ '-' :: u).length = nm.length + 37 := by
    simp [h36]
  unfold parseAfterPrefix
  rw [hlen]
  have hsub : nm.length + 37 - 37 = nm.length := by omega
  rw [hsub, List.drop_left, List.take_left]
  rw [if_neg (by omega)]
  simp only [List.head?_cons, List.tail_cons]
  rw [if_pos trivial]
  have hcond : (!nm.isEmpty && nm.all dotChar && isUuidShape u) = true := by
    cases nm with
    | nil => exact absurd rfl h1
    | cons a l => rw [h2, h3]; rfl
  rw [hcond]
  rfl

/-- Claim C8 (amended): parsing is the inverse of formatting for every
non-empty instance name whose characters are all matchable by the
regex's `.` (i.e. contain no line terminator) and every canonical
lowercase 8-4-4-4-12 uuid. -/
theorem parseContainerName_inverse (name id : String)
    (h1 : name ≠ "") (h2 : name.data.all dotChar = true)
    (h3 : isUuidShape id.data = true) :
    parseContainerName (vllmContainerName name id) = some (name, id) := by
  have hne : name.data ≠ [] := by
    intro h
    apply h1
    cases name with
    | mk l => cases h; rfl
  have hdata : (vllmContainerName name id).data
      = "vllm-".data ++ (name.data ++ '-' :: id.data) := by
    show "vllm-".data ++ name.data ++ "-".data ++ id.data
        = "vllm-".data ++ (name.data ++ '-' :: id.data)
    simp
  unfold parseContainerName
  rw [hdata, List.take_left' (by rfl), List.drop_left' (by rfl), if_pos rfl]
  exact parseAfterPrefix_roundtrip name.data id.data hne h2 h3

/-- Claim C8 (counterexample): for the non-empty instance name
containing a newline, formatting followed by parsing does not return the
original pair (the JavaScript regex `.` cannot match the newline, so the
match fails).  The claim, quantified over every non-empty name, is
therefore false as stated. -/
theorem parseContainerName_not_inverse :
    parseContainerName
        (vllmContainerName "a\nb" "00000000-0000-0000-0000-000000000000")
      ≠ some ("a\nb", "00000000-0000-0000-0000-000000000000") := by
  decide

end VllmManager

namespace VllmManager

/-- Witness for the amended C8: a concrete round trip. -/
theorem parseContainerName_inverse_witness :
    parseContainerName
        (vllmContainerName "my-model" "12345678-90ab-cdef-0123-456789abcdef")
      = some ("my-model", "12345678-90ab-cdef-0123-456789abcdef") :=
  parseContainerName_inverse "my-model" "12345678-90ab-cdef-0123-456789abcdef"
    (by decide) (by decide) (by decide)

end VllmManager

namespace VllmManager

/-! ## vLLM instance handlers (`routes/containers.js`, newer variant) -/

/-- Result of a successful `dockerService.createVLLMContainer` call:
the fields of it the handlers store. -/
structure DriverSuccess where
  containerId : String
  gpuId : Option String
  deriving Repr, DecidableEq

/-- Calls a handler issues against the container daemon (via the docker
service) in the course of one request. -/
inductive DriverCall where
  | createVLLM
  | removeContainer (containerId : String)
  deriving Repr, DecidableEq

/-- Body of `POST /api/containers`. -/
structure CreateReq where
  name : String
  modelName : String
  apiKey : Option String
  requireAuth : Bool
  gpuSelection : Option String
  maxContextLength : Option Nat
  trustRemoteCode : Bool
  quantization : Option String
  tensorParallelSize : Nat
  deriving Repr, DecidableEq

/-- Embedding of the create handler `router.post('/')`: validate, derive
the effective API key, allocate a port, call the driver
(`createVLLMContainer`, whose outcome is the `driver` parameter), insert
the instance row (`insertOk` is the `db.run` outcome).  The returned
list records the daemon calls the handler made; the number is the HTTP
status. -/
def createHandler (db : Store) (req : CreateReq) (defaultsApiKey : Option String)
    (now instanceId : String) (driver : Except String DriverSuccess)
    (insertOk : Bool) : Store × List DriverCall × Nat :=
  if req.name = "" ∨ req.modelName = "" then (db, [], 400)
  else
    match allocatePort db instanceId with
    | .error _ => (db, [], 500)
    | .ok (port, db1) =>
        match driver with
        | .error _ => (db1, [.createVLLM], 500)
        | .ok dr =>
            if insertOk then
              ({ db1 with instances := db1.instances ++
                  [{ id := instanceId, name := req.name,
                     model_name := req.modelName, port := port,
                     container_id := some dr.containerId, status := "running",
                     api_key := effectiveApiKey req.requireAuth req.apiKey
                       defaultsApiKey now,
                     gpu_id := dr.gpuId }] },
               [.createVLLM], 201)
            else (db1, [.createVLLM], 500)

/-- Embedding of `router.post('/:id/stop')`: 404 when the row is absent,
500 (state unchanged) when the daemon call fails, otherwise set the
row's status to `stopped`. -/
def stopHandler (db : Store) (iid : String) (dockerOk : Bool) : Store × Nat :=
  match db.instances.find? (fun r => r.id == iid) with
  | none => (db, 404)
  | some _ =>
      if dockerOk then
        ({ db with instances := db.instances.map (fun r =>
            if r.id == iid then { r with status := "stopped" } else r) }, 200)
      else (db, 500)

/-- Embedding of `router.post('/:id/start')`. -/
def startHandler (db : Store) (iid : String) (dockerOk : Bool) : Store × Nat :=
  match db.instances.find? (fun r => r.id == iid) with
  | none => (db, 404)
  | some _ =>
      if dockerOk then
        ({ db with instances := db.instances.map (fun r =>
            if r.id == iid then { r with status := "running" } else r) }, 200)
      else (db, 500)

/-- Embedding of `router.post('/:id/restart')`. -/
def restartHandler (db : Store) (iid : String) (dockerOk : Bool) : Store × Nat :=
  match db.instances.find? (fun r => r.id == iid) with
  | none => (db, 404)
  | some _ =>
      if dockerOk then
        ({ db with instances := db.instances.map (fun r =>
            if r.id == iid then { r with status := "running" } else r) }, 200)
      else (db, 500)

/-- Body of `PUT /api/containers/:id` (fields the embedding needs). -/
structure UpdateReq where
  name : String
  modelName : String
  apiKey : Option String
  requireAuth : Bool
  deriving Repr, DecidableEq

/-- Embedding of the update handler `router.put('/:id')`: stop and
remove the old container (best effort, no state effect), create a new
container (outcome in `driver`), then update the row in place — keeping
`id` and `port` but writing the *new* `container_id`, name, model,
status, API key and GPU id. -/
def putHandler (db : Store) (iid : String) (req : UpdateReq)
    (defaultsApiKey : Option String) (now : String)
    (driver : Except String DriverSuccess) : Store × Nat :=
  if req.name = "" ∨ req.modelName = "" then (db, 400)
  else
    match db.instances.find? (fun r => r.id == iid) with
    | none => (db, 404)
    | some _ =>
        match driver with
        | .error _ => (db, 500)
        | .ok dr =>
            ({ db with instances := db.instances.map (fun r =>
                if r.id == iid then
                  { r with
                    name := req.name
                    model_name := req.modelName
                    container_id := some dr.containerId
                    status := "running"
                    api_key := effectiveApiKey req.requireAuth req.apiKey
                      defaultsApiKey now
                    gpu_id := dr.gpuId }
                else r) }, 200)

/-- Embedding of `router.delete('/:id')`: remove the container
(idempotence handled by the daemon; `removeOk` is the call outcome),
release the port, delete the row. -/
def deleteHandler (db : Store) (iid : String) (removeOk : Bool) : Store × Nat :=
  match db.instances.find? (fun r => r.id == iid) with
  | none => (db, 404)
  | some inst =>
      if removeOk then
        ({ (releasePort db inst.port).2 with
           instances := db.instances.filter (fun r => !(r.id == iid)) }, 200)
      else (db, 500)

/-- Helper: the state produced by a successful allocation. -/
theorem allocatePort_ok_state {db : Store} {iid : String} {p : Nat} {db' : Store}
    (h : allocatePort db iid = .ok (p, db')) :
    db' = { db with allocated_ports := db.allocated_ports ++ [⟨p, iid⟩] } := by
  unfold allocatePort at h
  rcases hf : findAvailablePort (db.allocated_ports.map (·.port)) with _ | a
  · rw [hf] at h; cases h
  · rw [hf] at h
    simp only [Except.ok.injEq, Prod.mk.injEq] at h
    obtain ⟨h1, h2⟩ := h
    subst h1
    exact h2.symm

end VllmManager

namespace VllmManager

/-- Claim C1 (counterexample): on the empty database, when the driver's
create-and-start fails the handler returns 500 with the freshly
allocated reservation for port 8001 still in the table (no release);
and when the driver succeeds but the insert fails, the handler's only
daemon call was the create — it never asks for removal — and no
instance row exists for the created container. -/
theorem createHandler_no_rollback_cex :
    ((createHandler Store.empty
        ⟨"x", "org/m", none, false, none, none, false, none, 1⟩
        none "0" "11111111-1111-1111-1111-111111111111"
        (.error "daemon rejected") true).1.allocated_ports
      = [⟨8001, "11111111-1111-1111-1111-111111111111"⟩]) ∧
    ((createHandler Store.empty
        ⟨"x", "org/m", none, false, none, none, false, none, 1⟩
        none "0" "11111111-1111-1111-1111-111111111111"
        (.error "daemon rejected") true).2.2 = 500) ∧
    ((createHandler Store.empty
        ⟨"x", "org/m", none, false, none, none, false, none, 1⟩
        none "0" "11111111-1111-1111-1111-111111111111"
        (.ok ⟨"c1", none⟩) false).2.1 = [DriverCall.createVLLM]) ∧
    ((createHandler Store.empty
        ⟨"x", "org/m", none, false, none, none, false, none, 1⟩
        none "0" "11111111-1111-1111-1111-111111111111"
        (.ok ⟨"c1", none⟩) false).1.instances = []) := by
  decide

/-- Claim C1 (amended): the create handler performs no rollback.  After
a successful port allocation, a driver failure returns 500 with the
reservation still present (the port is not released), and an insert
failure after a successful create returns 500 without any
remove-container call, leaving the created container without an
instance record; recovery is deferred to the reconciler. -/
theorem createHandler_failure_behavior (db : Store) (req : CreateReq)
    (dk : Option String) (now iid e : String) (dr : DriverSuccess)
    (insertOk : Bool) (port : Nat) (db1 : Store)
    (hn : ¬(req.name = "" ∨ req.modelName = ""))
    (halloc : allocatePort db iid = .ok (port, db1)) :
    (createHandler db req dk now iid (.error e) insertOk
        = (db1, [DriverCall.createVLLM], 500) ∧
      (⟨port, iid⟩ : PortRow) ∈ db1.allocated_ports) ∧
    (createHandler db req dk now iid (.ok dr) false
        = (db1, [DriverCall.createVLLM], 500) ∧
      DriverCall.removeContainer dr.containerId ∉
        (createHandler db req dk now iid (.ok dr) false).2.1 ∧
      (createHandler db req dk now iid (.ok dr) false).1.instances
        = db.instances) := by
  have hstate := allocatePort_ok_state halloc
  refine ⟨⟨?_, ?_⟩, ?_, ?_, ?_⟩
  · unfold createHandler
    rw [if_neg hn, halloc]
  · rw [hstate]
    simp
  · unfold createHandler
    rw [if_neg hn, halloc]
    rfl
  · unfold createHandler
    rw [if_neg hn, halloc]
    simp
  · unfold createHandler
    rw [if_neg hn, halloc]
    rw [hstate]
    rfl

/-- Witness for the amended C1 at concrete inputs. -/
theorem createHandler_failure_behavior_witness :
    (createHandler Store.empty
        ⟨"x", "org/m", none, false, none, none, false, none, 1⟩
        none "0" "u1" (.error "boom") true
      = ({ Store.empty with allocated_ports := [⟨8001, "u1"⟩] },
         [DriverCall.createVLLM], 500) ∧
      (⟨8001, "u1"⟩ : PortRow) ∈
        ({ Store.empty with allocated_ports := [⟨8001, "u1"⟩] } : Store).allocated_ports) ∧
    (createHandler Store.empty
        ⟨"x", "org/m", none, false, none, none, false, none, 1⟩
        none "0" "u1" (.ok ⟨"c9", none⟩) false
      = ({ Store.empty with allocated_ports := [⟨8001, "u1"⟩] },
         [DriverCall.createVLLM], 500) ∧
      DriverCall.removeContainer (DriverSuccess.mk "c9" none).containerId ∉
        (createHandler Store.empty
          ⟨"x", "org/m", none, false, none, none, false, none, 1⟩
          none "0" "u1" (.ok ⟨"c9", none⟩) false).2.1 ∧
      (createHandler Store.empty
        ⟨"x", "org/m", none, false, none, none, false, none, 1⟩
        none "0" "u1" (.ok ⟨"c9", none⟩) false).1.instances
        = Store.empty.instances) :=
  createHandler_failure_behavior Store.empty
    ⟨"x", "org/m", none, false, none, none, false, none, 1⟩
    none "0" "u1" "boom" ⟨"c9", none⟩ true 8001
    { Store.empty with allocated_ports := [⟨8001, "u1"⟩] }
    (by decide) rfl

end VllmManager

namespace VllmManager

/-- Claim C3 (counterexample): with `requireAuth=false` the effective
API key is indeed null, but the driver's command still contains
`--api-key`, with the fallback value `localkey` (line 86 of
`dockerService.js`: `'--api-key', apiKey || 'localkey'`). -/
theorem vllmCommand_api_key_cex :
    effectiveApiKey false none none "0" = none ∧
    "--api-key" ∈ buildVllmCommand "org/m" (effectiveApiKey false none none "0")
      "0.85" "256" none false none 1 none 0 ∧
    buildVllmCommand "org/m" (effectiveApiKey false none none "0")
        "0.85" "256" none false none 1 none 0
      = ["--model", "org/m", "--api-key", "localkey", "--port", "8000",
         "--host", "0.0.0.0", "--gpu-memory-utilization", "0.85",
         "--max-num-seqs", "256"] := by
  decide

/-- Claim C3 (amended): for every create request with
`requireAuth=false` the stored instance row's `api_key` is null, but the
container command always contains a `--api-key` argument, whose value is
the fallback string `localkey` when the effective key is null. -/
theorem createNoAuth_behavior (db : Store) (req : CreateReq)
    (dk : Option String) (now iid : String) (dr : DriverSuccess)
    (port : Nat) (db1 : Store) (gmu mns : String) (devId : Option String)
    (nGpus : Nat)
    (hauth : req.requireAuth = false)
    (hn : ¬(req.name = "" ∨ req.modelName = ""))
    (halloc : allocatePort db iid = .ok (port, db1)) :
    (createHandler db req dk now iid (.ok dr) true).1.instances
      = db1.instances ++
        [{ id := iid, name := req.name, model_name := req.modelName,
           port := port, container_id := some dr.containerId,
           status := "running", api_key := none, gpu_id := dr.gpuId }] ∧
    "--api-key" ∈ buildVllmCommand req.modelName
      (effectiveApiKey req.requireAuth req.apiKey dk now) gmu mns
      req.maxContextLength req.trustRemoteCode req.quantization
      req.tensorParallelSize devId nGpus ∧
    jsOrString (effectiveApiKey req.requireAuth req.apiKey dk now) "localkey"
      = "localkey" := by
  have hkey : effectiveApiKey req.requireAuth req.apiKey dk now = none := by
    rw [hauth]
    rfl
  refine ⟨?_, ?_, ?_⟩
  · unfold createHandler
    rw [if_neg hn, halloc, hkey]
    rfl
  · unfold buildVllmCommand
    simp
  · rw [hkey]
    rfl

/-- Witness for the amended C3 at concrete inputs. -/
theorem createNoAuth_behavior_witness :
    (createHandler Store.empty
        ⟨"x", "org/m", none, false, none, none, false, none, 1⟩
        none "0" "u1" (.ok ⟨"c1", none⟩) true).1.instances
      = ({ Store.empty with allocated_ports := [⟨8001, "u1"⟩] } : Store).instances ++
        [{ id := "u1", name := "x", model_name := "org/m",
           port := 8001, container_id := some (DriverSuccess.mk "c1" none).containerId,
           status := "running", api_key := none,
           gpu_id := (DriverSuccess.mk "c1" none).gpuId }] ∧
    "--api-key" ∈ buildVllmCommand "org/m"
      (effectiveApiKey false none none "0") "0.85" "256" none false none 1
      none 0 ∧
    jsOrString (effectiveApiKey false none none "0") "localkey" = "localkey" :=
  createNoAuth_behavior Store.empty
    ⟨"x", "org/m", none, false, none, none, false, none, 1⟩
    none "0" "u1" ⟨"c1", none⟩ 8001
    { Store.empty with allocated_ports := [⟨8001, "u1"⟩] }
    "0.85" "256" none 0 rfl (by decide) rfl

end VllmManager

namespace VllmManager

/-- Claim C4 (counterexample): a configuration replace
(`PUT /containers/{id}`) on an instance whose `container_id` is `c1`
rewrites the row's `container_id` to the newly created container `c2`
without any removal of the record, so `container_id` is not immutable
for the life of the record. -/
theorem putHandler_container_id_cex :
    (putHandler
        ⟨[⟨"i1", "x", "m", 8001, some "c1", "running", none, none⟩],
         [], [⟨8001, "i1"⟩], []⟩
        "i1" ⟨"x", "m", none, false⟩ none "0" (.ok ⟨"c2", none⟩)).1.instances
      = [⟨"i1", "x", "m", 8001, some "c2", "running", none, none⟩] ∧
    (some "c2" : Option String) ≠ some "c1" := by
  decide

/-- Claim C4 (amended): `container_id` is preserved, row for row, by the
start, stop and restart handlers (whatever the daemon outcome), but the
update handler (`PUT /containers/{id}`) reassigns the matched row's
`container_id` to the id of the newly created container, leaving every
other row's `container_id` unchanged. -/
theorem container_id_update_behavior (db : Store) (iid : String) (ok : Bool)
    (req : UpdateReq) (dk : Option String) (now : String)
    (dr : DriverSuccess) :
    ((stopHandler db iid ok).1.instances.map (fun r => (r.id, r.container_id))
        = db.instances.map (fun r => (r.id, r.container_id))) ∧
    ((startHandler db iid ok).1.instances.map (fun r => (r.id, r.container_id))
        = db.instances.map (fun r => (r.id, r.container_id))) ∧
    ((restartHandler db iid ok).1.instances.map (fun r => (r.id, r.container_id))
        = db.instances.map (fun r => (r.id, r.container_id))) ∧
    (¬(req.name = "" ∨ req.modelName = "") →
      (putHandler db iid req dk now (.ok dr)).1.instances.map
          (fun r => (r.id, r.container_id))
        = db.instances.map (fun r =>
            (r.id, if r.id == iid then some dr.containerId
                   else r.container_id))) := by
  refine ⟨?_, ?_, ?_, ?_⟩
  · unfold stopHandler
    rcases hfind : db.instances.find? (fun r => r.id == iid) with _ | r0
    · simp only [hfind]
    · simp only [hfind]
      cases ok
      · rfl
      · simp only [List.map_map, if_pos rfl, if_true]
        apply List.map_congr_left
        intro r _
        by_cases h : r.id = iid <;> simp [h]
  · unfold startHandler
    rcases hfind : db.instances.find? (fun r => r.id == iid) with _ | r0
    · simp only [hfind]
    · simp only [hfind]
      cases ok
      · rfl
      · simp only [List.map_map, if_pos rfl, if_true]
        apply List.map_congr_left
        intro r _
        by_cases h : r.id = iid <;> simp [h]
  · unfold restartHandler
    rcases hfind : db.instances.find? (fun r => r.id == iid) with _ | r0
    · simp only [hfind]
    · simp only [hfind]
      cases ok
      · rfl
      · simp only [List.map_map, if_pos rfl, if_true]
        apply List.map_congr_left
        intro r _
        by_cases h : r.id = iid <;> simp [h]
  · intro hn
    unfold putHandler
    rw [if_neg hn]
    rcases hfind : db.instances.find? (fun r => r.id == iid) with _ | r0
    · simp only [hfind]
      rw [List.find?_eq_none] at hfind
      apply List.map_congr_left
      intro r hr
      have hne := hfind r hr
      simp only [Bool.not_eq_true] at hne
      rw [hne]
      rfl
    · simp only [hfind, List.map_map]
      apply List.map_congr_left
      intro r _
      by_cases h : r.id = iid <;> simp [h]

/-- Witness for the amended C4 at concrete inputs. -/
theorem container_id_update_behavior_witness :
    ((stopHandler
        ⟨[⟨"i1", "x", "m", 8001, some "c1", "running", none, none⟩],
         [], [⟨8001, "i1"⟩], []⟩ "i1" true).1.instances.map
          (fun r => (r.id, r.container_id))
      = ([⟨"i1", "x", "m", 8001, some "c1", "running", none, none⟩]
          : List InstanceRow).map (fun r => (r.id, r.container_id))) ∧
    ((startHandler
        ⟨[⟨"i1", "x", "m", 8001, some "c1", "running", none, none⟩],
         [], [⟨8001, "i1"⟩], []⟩ "i1" true).1.instances.map
          (fun r => (r.id, r.container_id))
      = ([⟨"i1", "x", "m", 8001, some "c1", "running", none, none⟩]
          : List InstanceRow).map (fun r => (r.id, r.container_id))) ∧
    ((restartHandler
        ⟨[⟨"i1", "x", "m", 8001, some "c1", "running", none, none⟩],
         [], [⟨8001, "i1"⟩], []⟩ "i1" true).1.instances.map
          (fun r => (r.id, r.container_id))
      = ([⟨"i1", "x", "m", 8001, some "c1", "running", none, none⟩]
          : List InstanceRow).map (fun r => (r.id, r.container_id))) ∧
    (¬(("x" : String) = "" ∨ ("m" : String) = "") →
      (putHandler
          ⟨[⟨"i1", "x", "m", 8001, some "c1", "running", none, none⟩],
           [], [⟨8001, "i1"⟩], []⟩
          "i1" ⟨"x", "m", none, false⟩ none "0"
          (.ok ⟨"c2", none⟩)).1.instances.map
            (fun r => (r.id, r.container_id))
        = ([⟨"i1", "x", "m", 8001, some "c1", "running", none, none⟩]
            : List InstanceRow).map (fun r =>
              (r.id, if r.id == "i1"
                     then some (DriverSuccess.mk "c2" none).containerId
                     else r.container_id))) :=
  container_id_update_behavior
    ⟨[⟨"i1", "x", "m", 8001, some "c1", "running", none, none⟩],
     [], [⟨8001, "i1"⟩], []⟩
    "i1" true ⟨"x", "m", none, false⟩ none "0" ⟨"c2", none⟩

end VllmManager

namespace VllmManager

/-! ## GPU Inventory (`services/gpuService.js`) -/

/-- One entry of `gpuInfo.gpus` (from `nvidia-smi`); `memoryFree` is
`none` for the string `'Unknown'`. -/
structure GpuEntry where
  id : String
  name : String
  memoryFree : Option Int
  deriving Repr, DecidableEq

/-- The cached `gpuInfo` topology. -/
structure GpuInfo where
  hasGPU : Bool
  gpus : List GpuEntry
  deriving Repr, DecidableEq

/-- One element of `getAvailableGPUs()`: a GPU with its in-use count. -/
structure AvailGpu where
  gpu : GpuEntry
  inUse : Nat
  deriving Repr, DecidableEq

/-- Lookup in the usage map built by `getGPUUsage()` (instance counts
per GPU id); absent ids count 0. -/
def gpuUsageCount (usage : List (String × Nat)) (id : String) : Nat :=
  match usage.find? (fun u => u.1 == id) with
  | some u => u.2
  | none => 0

/-- Embedding of `getAvailableGPUs()`: empty without GPU support,
otherwise every GPU annotated with its usage count. -/
def getAvailableGPUs (info : GpuInfo) (usage : List (String × Nat)) :
    List AvailGpu :=
  if !info.hasGPU then []
  else info.gpus.map (fun g => ⟨g, gpuUsageCount usage g.id⟩)

/-- The `availableGPUs.sort` comparator: ascending usage, then (when
both free-memory figures are known) descending free memory, else tie. -/
def gpuCompare (a b : AvailGpu) : Int :=
  if a.inUse ≠ b.inUse then (a.inUse : Int) - (b.inUse : Int)
  else
    match a.gpu.memoryFree, b.gpu.memoryFree with
    | some x, some y => y - x
    | _, _ => 0

/-- Stable insertion used to model the (stable) JavaScript
`Array.prototype.sort`: an element goes before the first already placed
element it does not compare strictly after. -/
def sortInsert (x : AvailGpu) : List AvailGpu → List AvailGpu
  | [] => [x]
  | y :: ys => if gpuCompare x y ≤ 0 then x :: y :: ys else y :: sortInsert x ys

/-- Stable sort by `gpuCompare` (insertion sort, right fold so earlier
elements are inserted last and stay in front of their ties). -/
def sortGPUs (l : List AvailGpu) : List AvailGpu :=
  l.foldr sortInsert []

/-- Embedding of `GPUService.selectOptimalGPU(preferredGPU)`: `null` in
CPU mode or for preference `cpu`; a specifically requested GPU when one
with that id exists; otherwise — including when the requested id does
not exist — the head of the usage-sorted available list (the JS returns
that element object; the embedding returns its `gpu` field). -/
def selectOptimalGPU (info : GpuInfo) (usage : List (String × Nat))
    (preferredGPU : String) : Option GpuEntry :=
  if !info.hasGPU || preferredGPU == "cpu" then none
  else
    match
      (if preferredGPU ≠ "auto" then info.gpus.find? (fun g => g.id == preferredGPU)
       else none) with
    | some g => some g
    | none =>
        match sortGPUs (getAvailableGPUs info usage) with
        | [] => none
        | g :: _ => some g.gpu

/-- Claim C6 (counterexample): with one discovered GPU of id `0` and the
specific preference `1` (an id that does not exist), selection does not
fail — it silently substitutes GPU `0` via the auto load-balancing
fallback. -/
theorem selectOptimalGPU_substitutes_cex :
    selectOptimalGPU ⟨true, [⟨"0", "RTX", some 8000⟩]⟩ [] "1"
      = some ⟨"0", "RTX", some 8000⟩ := by
  decide

/-- Claim C6 (amended): when the specific preference names no discovered
GPU, `selectOptimalGPU` behaves exactly like preference `auto` (the
load-balancing fallback); it never fails. -/
theorem selectOptimalGPU_fallback (info : GpuInfo)
    (usage : List (String × Nat)) (pref : String)
    (hna : pref ≠ "auto") (hcpu : pref ≠ "cpu")
    (habs : ∀ g ∈ info.gpus, g.id ≠ pref) :
    selectOptimalGPU info usage pref = selectOptimalGPU info usage "auto" := by
  have hfind : info.gpus.find? (fun g => g.id == pref) = none := by
    rw [List.find?_eq_none]
    intro g hg
    simpa using habs g hg
  have h1 : (pref == "cpu") = false := by
    simpa using hcpu
  unfold selectOptimalGPU
  cases hgpu : info.hasGPU
  · simp [hgpu]
  · simp [hgpu, h1, hfind, if_pos hna]

/-- Witness for the amended C6 at concrete inputs. -/
theorem selectOptimalGPU_fallback_witness :
    selectOptimalGPU ⟨true, [⟨"0", "A", some 4000⟩, ⟨"1", "B", some 9000⟩]⟩
        [("0", 2)] "7"
      = selectOptimalGPU ⟨true, [⟨"0", "A", some 4000⟩, ⟨"1", "B", some 9000⟩]⟩
        [("0", 2)] "auto" :=
  selectOptimalGPU_fallback _ _ "7" (by decide) (by decide) (by decide)

end VllmManager

namespace VllmManager

/-! ## Reconciler: stale reservation cleanup
(`orphanService.cleanupStalePortAllocations`) -/

/-- Embedding of `cleanupStalePortAllocations()`: reads all reservation
rows and all ids of the `instances` table (only the vLLM table), then
deletes every reservation whose `instance_id` is not among those ids.
Returns the deleted rows and the new state. -/
def cleanupStalePortAllocations (db : Store) : List PortRow × Store :=
  (db.allocated_ports.filter
     (fun a => !((db.instances.map (·.id)).contains a.instance_id)),
   { db with
     allocated_ports := db.allocated_ports.filter (fun a => (db.instances.map (·.id)).contains a.instance_id) })

/-- Helper: a reservation survives cleanup exactly when its owner is in
the vLLM `instances` table. -/
theorem cleanupStale_keeps_iff (db : Store) (r : PortRow) :
    r ∈ (cleanupStalePortAllocations db).2.allocated_ports ↔
      r ∈ db.allocated_ports ∧
      r.instance_id ∈ db.instances.map (·.id) := by
  unfold cleanupStalePortAllocations
  simp [List.mem_filter, List.elem_iff]

/-- Claim C5 (failing input): a store holding one Ollama instance `o1`
(in `ollama_instances`) that owns the reservation `(8005, o1)`, and no
vLLM instance.  Cleanup deletes the live Ollama instance's reservation,
because the stale test consults only the `instances` table — the code
contradicts its own doc comment ("where the instance no longer exists")
and the Ollama create path, which reserves ports for `ollama_instances`
rows through the same table. -/
theorem cleanupStale_deletes_live_ollama :
    ((⟨[], [⟨"o1", "olla", 8005, some "c1", "running", none⟩],
        [⟨8005, "o1"⟩], []⟩ : Store).ollama_instances.map (·.id) = ["o1"]) ∧
    (cleanupStalePortAllocations
        ⟨[], [⟨"o1", "olla", 8005, some "c1", "running", none⟩],
         [⟨8005, "o1"⟩], []⟩).2.allocated_ports = [] ∧
    (cleanupStalePortAllocations
        ⟨[], [⟨"o1", "olla", 8005, some "c1", "running", none⟩],
         [⟨8005, "o1"⟩], []⟩).1 = [⟨8005, "o1"⟩] := by
  decide

end VllmManager

namespace VllmManager

/-! ## Reconciler: orphan detection and import
(`orphanService.detectOrphanedContainers` / `importOrphanedContainers` /
`checkAndImportOrphans`) -/

/-- One entry of a container's `Ports` array. -/
structure PortMapping where
  privatePort : Nat
  publicPort : Option Nat
  deriving Repr, DecidableEq

/-- One entry of `HostConfig.DeviceRequests`. -/
structure DeviceRequest where
  driver : String
  deviceIds : List String
  deriving Repr, DecidableEq

/-- A container as the daemon reports it (the fields the reconciler
reads; `portBindings8000` is `HostConfig.PortBindings['8000/tcp'][0]`,
already parsed). -/
structure DockerContainer where
  id : String
  names : List String
  running : Bool
  created : Nat
  ports : List PortMapping
  portBindings8000 : Option Nat
  command : List String
  env : List String
  deviceRequests : List DeviceRequest
  deriving Repr, DecidableEq

/-- The record `detectOrphanedContainers` builds per orphan. -/
structure Orphan where
  dockerId : String
  name : String
  parsedName : String
  uuid : String
  running : Bool
  created : Nat
  ports : List PortMapping
  portBindings8000 : Option Nat
  command : List String
  env : List String
  deviceRequests : List DeviceRequest
  deriving Repr, DecidableEq

/-- `findIndex` of a flag followed by taking the next element, as
`extractModelName` does on the command array (when the flag is last,
there is no next element). -/
def valueAfterFlag (flag : String) : List String → Option String
  | [] => none
  | [_] => none
  | x :: y :: rest => if x == flag then some y else valueAfterFlag flag (y :: rest)

/-- JavaScript `s.split('=')[1]` for a string known to contain `=`. -/
def jsSplitEqSecond (s : String) : String :=
  match (s.splitOn "=").get? 1 with
  | some v => v
  | none => ""

/-- Embedding of `OrphanService.extractModelName`: the value after the
first `--model` flag, else the value of a `MODEL_NAME=` environment
entry, else the literal `'unknown'`. -/
def extractModelName (o : Orphan) : String :=
  match valueAfterFlag "--model" o.command with
  | some v => v
  | none =>
      match o.env.find? (fun e => jsStartsWith e "MODEL_NAME=") with
      | some e => jsSplitEqSecond e
      | none => "unknown"

/-- Embedding of `OrphanService.extractPort`: if the `Ports` array is
non-empty, the public side of the entry with private port 8000 (null
when no such entry or no public port); otherwise the host-config port
binding for `8000/tcp`. -/
def extractPort (o : Orphan) : Option Nat :=
  if !o.ports.isEmpty then
    match o.ports.find? (fun p => p.privatePort == 8000) with
    | some p => p.publicPort
    | none => none
  else o.portBindings8000

/-- Embedding of `OrphanService.extractGpuId`: first device id of an
nvidia device request, else the `NVIDIA_VISIBLE_DEVICES` value (`all`
mapped to `auto`), else `'unknown'`. -/
def extractGpuId (o : Orphan) : String :=
  match o.deviceRequests.find?
      (fun r => r.driver == "nvidia" && !r.deviceIds.isEmpty) with
  | some r => r.deviceIds.headD ""
  | none =>
      match o.env.find? (fun e => jsStartsWith e "NVIDIA_VISIBLE_DEVICES=") with
      | some e =>
          if jsSplitEqSecond e == "all" then "auto" else jsSplitEqSecond e
      | none => "unknown"

/-- `container.Names[0].substring(1)`. -/
def dockerContainerName (c : DockerContainer) : String :=
  jsStringDrop (c.names.headD "") 1

/-- `container.Names.some(name => name.startsWith('/vllm-'))`. -/
def isVllmNamed (c : DockerContainer) : Bool :=
  c.names.any (fun n => jsStartsWith n "/vllm-")

/-- `SELECT container_id FROM instances WHERE container_id IS NOT NULL`. -/
def trackedContainerIds (db : Store) : List String :=
  db.instances.filterMap (·.container_id)

/-- The orphan record assembled from a detected container. -/
def mkOrphan (c : DockerContainer) (pi : String × String) : Orphan :=
  ⟨c.id, dockerContainerName c, pi.1, pi.2, c.running, c.created, c.ports,
   c.portBindings8000, c.command, c.env, c.deviceRequests⟩

/-- Embedding of `detectOrphanedContainers`: among the `/vllm-`-named
containers, those whose id is not tracked in the database and whose
name parses. -/
def detectOrphanedContainers (docker : List DockerContainer) (db : Store) :
    List Orphan :=
  (docker.filter isVllmNamed).filterMap (fun c =>
    if (trackedContainerIds db).contains c.id then none
    else
      match parseContainerName (dockerContainerName c) with
      | some pi => some (mkOrphan c pi)
      | none => none)

/-- The `INSERT INTO instances ...` row of the import loop: id and name
from the parsed container name, `container_id` from the daemon,
status from the fresh inspect, `api_key` not among the inserted columns
(null). -/
def importedRow (o : Orphan) (port : Nat) : InstanceRow :=
  { id := o.uuid, name := o.parsedName, model_name := extractModelName o,
    port := port, container_id := some o.dockerId,
    status := if o.running then "running" else "stopped",
    api_key := none, gpu_id := some (extractGpuId o) }

/-- One iteration of the import loop: skip when no port could be
extracted, skip when the port is still reserved, otherwise insert the
instance row and its reservation. -/
def importOne (db : Store) (o : Orphan) : Store :=
  match extractPort o with
  | none => db
  | some port =>
      if db.allocated_ports.any (fun r => r.port == port) then db
      else
        { db with
          instances := db.instances ++ [importedRow o port]
          allocated_ports := db.allocated_ports ++ [⟨port, o.uuid⟩] }

/-- Embedding of `importOrphanedContainers`: clean stale reservations
first, then run the import loop. -/
def importOrphanedContainers (db : Store) (orphans : List Orphan) : Store :=
  orphans.foldl importOne (cleanupStalePortAllocations db).2

/-- Embedding of `checkAndImportOrphans(autoImport)`: detect; on zero
orphans return immediately; otherwise import when asked.  Returns the
new state and the number of detected orphans. -/
def checkAndImportOrphans (docker : List DockerContainer) (db : Store)
    (autoImport : Bool) : Store × Nat :=
  if (detectOrphanedContainers docker db).isEmpty then (db, 0)
  else
    (if autoImport then
       importOrphanedContainers db (detectOrphanedContainers docker db)
     else db,
     (detectOrphanedContainers docker db).length)

end VllmManager

namespace VllmManager

/-- Claim C10 (counterexample): an orphan whose host port 8001 is
extractable is nevertheless skipped (nothing inserted) because the port
is still reserved by a live instance after cleanup — so a missing port
is not the only cause of a skip. -/
theorem importOrphans_port_conflict_cex :
    extractPort ⟨"c2", "vllm-y-22222222-2222-2222-2222-222222222222", "y",
        "22222222-2222-2222-2222-222222222222", true, 0,
        [⟨8000, some 8001⟩], none, [], [], []⟩ = some 8001 ∧
    importOrphanedContainers
        ⟨[⟨"i1", "x", "m", 8001, some "c1", "running", none, none⟩],
         [], [⟨8001, "i1"⟩], []⟩
        [⟨"c2", "vllm-y-22222222-2222-2222-2222-222222222222", "y",
          "22222222-2222-2222-2222-222222222222", true, 0,
          [⟨8000, some 8001⟩], none, [], [], []⟩]
      = ⟨[⟨"i1", "x", "m", 8001, some "c1", "running", none, none⟩],
         [], [⟨8001, "i1"⟩], []⟩ := by
  decide

/-- Claim C10 (amended): the import loop skips an orphan exactly when no
port could be extracted or the extracted port is still reserved; when
the port is free it inserts the instance row (model name as extracted,
the literal `unknown` when neither a `--model` value nor a `MODEL_NAME=`
variable is present) together with its reservation. -/
theorem importOne_spec (s : Store) (o : Orphan) :
    (extractPort o = none → importOne s o = s) ∧
    (∀ p, extractPort o = some p →
      ((s.allocated_ports.any (fun r => r.port == p)) = true →
        importOne s o = s) ∧
      ((s.allocated_ports.any (fun r => r.port == p)) = false →
        (importOne s o).instances = s.instances ++ [importedRow o p] ∧
        (importOne s o).allocated_ports
          = s.allocated_ports ++ [⟨p, o.uuid⟩] ∧
        (importedRow o p).model_name = extractModelName o)) ∧
    (valueAfterFlag "--model" o.command = none →
      o.env.find? (fun e => jsStartsWith e "MODEL_NAME=") = none →
      extractModelName o = "unknown") := by
  refine ⟨?_, ?_, ?_⟩
  · intro h
    unfold importOne
    rw [h]
  · intro p hp
    constructor
    · intro hany
      unfold importOne
      simp only [hp, hany, if_true]
    · intro hany
      unfold importOne
      simp only [hp, hany]
      exact ⟨rfl, rfl, rfl⟩
  · intro h1 h2
    unfold extractModelName
    rw [h1, h2]

/-- Witness for the amended C10: a free port and a command with no
model flag yield an inserted row with `model_name = "unknown"`. -/
theorem importOne_spec_witness :
    ((importOne Store.empty
        ⟨"c7", "vllm-z-44444444-4444-4444-4444-444444444444", "z",
         "44444444-4444-4444-4444-444444444444", true, 0,
         [⟨8000, some 8003⟩], none, [], [], []⟩).instances
      = Store.empty.instances ++
        [importedRow
          ⟨"c7", "vllm-z-44444444-4444-4444-4444-444444444444", "z",
           "44444444-4444-4444-4444-444444444444", true, 0,
           [⟨8000, some 8003⟩], none, [], [], []⟩ 8003] ∧
     (importOne Store.empty
        ⟨"c7", "vllm-z-44444444-4444-4444-4444-444444444444", "z",
         "44444444-4444-4444-4444-444444444444", true, 0,
         [⟨8000, some 8003⟩], none, [], [], []⟩).allocated_ports
      = Store.empty.allocated_ports ++
        [⟨8003, "44444444-4444-4444-4444-444444444444"⟩] ∧
     (importedRow
        ⟨"c7", "vllm-z-44444444-4444-4444-4444-444444444444", "z",
         "44444444-4444-4444-4444-444444444444", true, 0,
         [⟨8000, some 8003⟩], none, [], [], []⟩ 8003).model_name
      = extractModelName
          ⟨"c7", "vllm-z-44444444-4444-4444-4444-444444444444", "z",
           "44444444-4444-4444-4444-444444444444", true, 0,
           [⟨8000, some 8003⟩], none, [], [], []⟩) ∧
    extractModelName
        ⟨"c7", "vllm-z-44444444-4444-4444-4444-444444444444", "z",
         "44444444-4444-4444-4444-444444444444", true, 0,
         [⟨8000, some 8003⟩], none, [], [], []⟩ = "unknown" :=
  ⟨((importOne_spec Store.empty
      ⟨"c7", "vllm-z-44444444-4444-4444-4444-444444444444", "z",
       "44444444-4444-4444-4444-444444444444", true, 0,
       [⟨8000, some 8003⟩], none, [], [], []⟩).2.1 8003 rfl).2 rfl,
   (importOne_spec Store.empty
      ⟨"c7", "vllm-z-44444444-4444-4444-4444-444444444444", "z",
       "44444444-4444-4444-4444-444444444444", true, 0,
       [⟨8000, some 8003⟩], none, [], [], []⟩).2.2 rfl rfl⟩

end VllmManager

namespace VllmManager

/-- Invariant: every reservation's owner exists in the vLLM `instances`
table (the condition under which cleanup deletes nothing). -/
def noStale (db : Store) : Prop :=
  ∀ r ∈ db.allocated_ports, r.instance_id ∈ db.instances.map (·.id)

theorem cleanup_noStale (db : Store) :
    noStale (cleanupStalePortAllocations db).2 := by
  intro r hr
  rw [cleanupStale_keeps_iff] at hr
  exact hr.2

theorem cleanup_eq_of_noStale (db : Store) (h : noStale db) :
    (cleanupStalePortAllocations db).2 = db := by
  unfold cleanupStalePortAllocations
  have hfilter : db.allocated_ports.filter
      (fun a => (db.instances.map (·.id)).contains a.instance_id)
      = db.allocated_ports :=
    List.filter_eq_self.mpr (fun a ha => List.elem_eq_true_of_mem (h a ha))
  rw [hfilter]

theorem importOne_extends (s : Store) (o : Orphan) :
    s.instances <+: (importOne s o).instances ∧
    s.allocated_ports <+: (importOne s o).allocated_ports := by
  unfold importOne
  rcases hp : extractPort o with _ | p
  · exact ⟨List.prefix_refl _, List.prefix_refl _⟩
  · cases hany : s.allocated_ports.any (fun r => r.port == p)
    · simp only [hany, Bool.false_eq_true, if_false]
      exact ⟨⟨[importedRow o p], rfl⟩, ⟨[⟨p, o.uuid⟩], rfl⟩⟩
    · simp only [hany, if_true]
      exact ⟨List.prefix_refl _, List.prefix_refl _⟩

theorem foldl_importOne_extends (os : List Orphan) (s : Store) :
    s.instances <+: (os.foldl importOne s).instances ∧
    s.allocated_ports <+: (os.foldl importOne s).allocated_ports := by
  induction os generalizing s with
  | nil => exact ⟨List.prefix_refl _, List.prefix_refl _⟩
  | cons a rest ih =>
      obtain ⟨h1, h2⟩ := importOne_extends s a
      obtain ⟨g1, g2⟩ := ih (importOne s a)
      exact ⟨h1.trans g1, h2.trans g2⟩

theorem noStale_insert {s : Store} (h : noStale s) (o : Orphan) (p : Nat) :
    noStale { s with
      instances := s.instances ++ [importedRow o p]
      allocated_ports := s.allocated_ports ++ [⟨p, o.uuid⟩] } := by
  intro r hr
  simp only [List.mem_append] at hr
  simp only [List.map_append, List.mem_append]
  rcases hr with hr | hr
  · exact Or.inl (h r hr)
  · right
    simp only [List.mem_singleton] at hr
    subst hr
    simp [importedRow]

theorem importOne_noStale {s : Store} (h : noStale s) (o : Orphan) :
    noStale (importOne s o) := by
  unfold importOne
  rcases hp : extractPort o with _ | p
  · exact h
  · cases hany : s.allocated_ports.any (fun r => r.port == p)
    · simp only [hany, Bool.false_eq_true, if_false]
      exact noStale_insert h o p
    · simp only [hany, if_true]
      exact h

theorem foldl_importOne_noStale {s : Store} (h : noStale s)
    (os : List Orphan) : noStale (os.foldl importOne s) := by
  induction os generalizing s with
  | nil => exact h
  | cons a rest ih => exact ih (importOne_noStale h a)

theorem mem_detectOrphans {docker : List DockerContainer} {db : Store}
    {o : Orphan} :
    o ∈ detectOrphanedContainers docker db ↔
      ∃ c ∈ docker, isVllmNamed c = true ∧
        (trackedContainerIds db).contains c.id = false ∧
        ∃ pi, parseContainerName (dockerContainerName c) = some pi ∧
          o = mkOrphan c pi := by
  unfold detectOrphanedContainers
  rw [List.mem_filterMap]
  constructor
  · rintro ⟨c, hc, hf⟩
    rw [List.mem_filter] at hc
    by_cases hcon : (trackedContainerIds db).contains c.id = true
    · rw [if_pos hcon] at hf
      cases hf
    · rw [if_neg hcon] at hf
      rcases hparse : parseContainerName (dockerContainerName c) with _ | pi
      · rw [hparse] at hf
        cases hf
      · rw [hparse] at hf
        injection hf with hf
        exact ⟨c, hc.1, hc.2, Bool.not_eq_true _ ▸ hcon, pi, hparse, hf.symm⟩
  · rintro ⟨c, hc, hvllm, hcon, pi, hparse, rfl⟩
    refine ⟨c, List.mem_filter.mpr ⟨hc, hvllm⟩, ?_⟩
    rw [if_neg (by rw [hcon]; exact Bool.false_ne_true), hparse]

/-- Evidence that the import loop will never (re-)import the orphan `o`
against state `s`: either it is already tracked, or it has no
extractable port, or its port is reserved. -/
def importEvidence (s : Store) (o : Orphan) : Prop :=
  (∃ row ∈ s.instances, row.container_id = some o.dockerId) ∨
  extractPort o = none ∨
  ∃ p, extractPort o = some p ∧ ∃ r ∈ s.allocated_ports, r.port = p

theorem importEvidence_mono {s s' : Store} (h1 : s.instances <+: s'.instances)
    (h2 : s.allocated_ports <+: s'.allocated_ports) {o : Orphan}
    (h : importEvidence s o) : importEvidence s' o := by
  rcases h with ⟨row, hr, hc⟩ | h | ⟨p, hp, r, hr, hq⟩
  · exact Or.inl ⟨row, h1.subset hr, hc⟩
  · exact Or.inr (Or.inl h)
  · exact Or.inr (Or.inr ⟨p, hp, r, h2.subset hr, hq⟩)

theorem importOne_evidence (s : Store) (o : Orphan) :
    importEvidence (importOne s o) o := by
  rcases hp : extractPort o with _ | p
  · exact Or.inr (Or.inl hp)
  · cases hany : s.allocated_ports.any (fun r => r.port == p)
    · refine Or.inl ⟨importedRow o p, ?_, rfl⟩
      simp [importOne, hp, hany]
    · have hskip : importOne s o = s := by
        simp [importOne, hp, hany]
      rw [List.any_eq_true] at hany
      obtain ⟨r, hr, hpr⟩ := hany
      rw [hskip]
      exact Or.inr (Or.inr ⟨p, hp, r, hr, by simpa using hpr⟩)

theorem foldl_importOne_evidence (os : List Orphan) (s : Store) :
    ∀ o ∈ os, importEvidence (os.foldl importOne s) o := by
  induction os generalizing s with
  | nil => intro o ho; cases ho
  | cons a rest ih =>
      intro o ho
      rw [List.foldl_cons]
      rcases List.mem_cons.mp ho with rfl | ho'
      · obtain ⟨h1, h2⟩ := foldl_importOne_extends rest (importOne s o)
        exact importEvidence_mono h1 h2 (importOne_evidence s o)
      · exact ih (importOne s a) o ho'

theorem importOne_skip {s : Store} {o : Orphan}
    (hev : importEvidence s o)
    (hno : ¬ ∃ row ∈ s.instances, row.container_id = some o.dockerId) :
    importOne s o = s := by
  rcases hev with h | h | ⟨p, hp, r, hr, hq⟩
  · exact absurd h hno
  · simp [importOne, h]
  · have hany : s.allocated_ports.any (fun r => r.port == p) = true :=
      List.any_eq_true.mpr ⟨r, hr, by simpa using hq⟩
    simp [importOne, hp, hany]

theorem foldl_eq_self {s : Store} {os : List Orphan}
    (h : ∀ o ∈ os, importOne s o = s) : os.foldl importOne s = s := by
  induction os with
  | nil => rfl
  | cons a rest ih =>
      rw [List.foldl_cons, h a (by simp)]
      exact ih (fun o ho => h o (by simp [ho]))

end VllmManager

namespace VllmManager

/-- Claim C7 (amended, state part): running
`checkAndImportOrphans(autoImport=true)` twice against an unchanged
container-daemon view produces exactly the state of running it once —
every imported container is tracked afterwards, every skipped orphan is
skipped again for the same reason, and the second cleanup deletes
nothing. -/
theorem checkAndImport_idempotent (docker : List DockerContainer) (db : Store) :
    (checkAndImportOrphans docker
        (checkAndImportOrphans docker db true).1 true).1
      = (checkAndImportOrphans docker db true).1 := by
  by_cases hdet : (detectOrphanedContainers docker db).isEmpty = true
  · have h1 : (checkAndImportOrphans docker db true).1 = db := by
      simp [checkAndImportOrphans, hdet]
    rw [h1]
    simp [checkAndImportOrphans, hdet]
  · have h1 : (checkAndImportOrphans docker db true).1
        = importOrphanedContainers db (detectOrphanedContainers docker db) := by
      simp [checkAndImportOrphans, hdet]
    rw [h1]
    have hdb1 : importOrphanedContainers db (detectOrphanedContainers docker db)
        = (detectOrphanedContainers docker db).foldl importOne
            (cleanupStalePortAllocations db).2 := rfl
    have hns : noStale (importOrphanedContainers db
        (detectOrphanedContainers docker db)) := by
      rw [hdb1]
      exact foldl_importOne_noStale (cleanup_noStale db) _
    have hpre : db.instances <+:
        (importOrphanedContainers db
          (detectOrphanedContainers docker db)).instances := by
      rw [hdb1]
      exact (foldl_importOne_extends (detectOrphanedContainers docker db)
        (cleanupStalePortAllocations db).2).1
    by_cases hdet2 : (detectOrphanedContainers docker
        (importOrphanedContainers db
          (detectOrphanedContainers docker db))).isEmpty = true
    · simp [checkAndImportOrphans, hdet2]
    · have hmain : (checkAndImportOrphans docker
          (importOrphanedContainers db (detectOrphanedContainers docker db))
          true).1
          = importOrphanedContainers
              (importOrphanedContainers db (detectOrphanedContainers docker db))
              (detectOrphanedContainers docker
                (importOrphanedContainers db
                  (detectOrphanedContainers docker db))) := by
        simp [checkAndImportOrphans, hdet2]
      rw [hmain]
      have hrew : importOrphanedContainers
          (importOrphanedContainers db (detectOrphanedContainers docker db))
          (detectOrphanedContainers docker
            (importOrphanedContainers db (detectOrphanedContainers docker db)))
          = (detectOrphanedContainers docker
              (importOrphanedContainers db
                (detectOrphanedContainers docker db))).foldl
              importOne
              (cleanupStalePortAllocations
                (importOrphanedContainers db
                  (detectOrphanedContainers docker db))).2 := rfl
      rw [hrew, cleanup_eq_of_noStale _ hns]
      apply foldl_eq_self
      intro o ho
      obtain ⟨c, hcdocker, hvllm, hcon1, pi, hparse, rfl⟩ :=
        mem_detectOrphans.mp ho
      have hno : ¬ ∃ row ∈ (importOrphanedContainers db
          (detectOrphanedContainers docker db)).instances,
          row.container_id = some (mkOrphan c pi).dockerId := by
        rintro ⟨row, hrow, hcid⟩
        have hmem : c.id ∈ trackedContainerIds
            (importOrphanedContainers db (detectOrphanedContainers docker db)) :=
          List.mem_filterMap.mpr ⟨row, hrow, hcid⟩
        have htrue : (trackedContainerIds
            (importOrphanedContainers db
              (detectOrphanedContainers docker db))).contains c.id = true :=
          List.elem_eq_true_of_mem hmem
        rw [hcon1] at htrue
        exact Bool.false_ne_true htrue
      have hcon0 : (trackedContainerIds db).contains c.id = false := by
        cases hcon0 : (trackedContainerIds db).contains c.id
        · rfl
        · have hmem : c.id ∈ trackedContainerIds db :=
            List.mem_of_elem_eq_true hcon0
          obtain ⟨row, hrow, hcid⟩ := List.mem_filterMap.mp hmem
          have hmem1 : c.id ∈ trackedContainerIds
              (importOrphanedContainers db
                (detectOrphanedContainers docker db)) :=
            List.mem_filterMap.mpr ⟨row, hpre.subset hrow, hcid⟩
          have htrue : (trackedContainerIds
              (importOrphanedContainers db
                (detectOrphanedContainers docker db))).contains c.id = true :=
            List.elem_eq_true_of_mem hmem1
          rw [htrue] at hcon1
          exact hcon1
      have ho1 : mkOrphan c pi ∈ detectOrphanedContainers docker db :=
        mem_detectOrphans.mpr ⟨c, hcdocker, hvllm, hcon0, pi, hparse, rfl⟩
      have hev : importEvidence
          (importOrphanedContainers db (detectOrphanedContainers docker db))
          (mkOrphan c pi) := by
        rw [hdb1]
        exact foldl_importOne_evidence _ _ _ ho1
      exact importOne_skip hev hno

end VllmManager

namespace VllmManager

/-- Claim C7 (counterexample): one daemon container named
`vllm-a-3333…` with no port information and an empty store.  The first
run detects it and skips it (no extractable port), leaving the store
unchanged, so the second run detects one orphan again — not zero as the
claim states (the state, however, is unchanged, as the amended claim
proves). -/
theorem checkAndImport_second_run_cex :
    (checkAndImportOrphans
        [⟨"c1", ["/vllm-a-33333333-3333-3333-3333-333333333333"], true, 0,
          [], none, [], [], []⟩]
        (checkAndImportOrphans
          [⟨"c1", ["/vllm-a-33333333-3333-3333-3333-333333333333"], true, 0,
            [], none, [], [], []⟩]
          Store.empty true).1 true).2 = 1 ∧
    (1 : Nat) ≠ 0 := by
  decide

end VllmManager

namespace VllmManager

/-! ## Model Puller (`ollamaService.pullModelStream`,
`routes/ollama.js` pull handler) -/

/-- A parsed progress record of the Ollama pull stream (the fields the
route writes back). -/
structure PullRecord where
  status : String
  size : Option Nat
  digest : Option String
  modified_at : Option String
  deriving Repr, DecidableEq

/-- The per-line step of `pullModelStream`'s `data` listener: a parsed
record with `status === 'success'` becomes the remembered
`finalStatus`; anything else (other records, unparseable lines) leaves
it. -/
def pullStep (acc : Option PullRecord) (l : Option PullRecord) :
    Option PullRecord :=
  match l with
  | some r => if r.status == "success" then some r else acc
  | none => acc

/-- Embedding of `OllamaService.pullModelStream`: the stream is the
list of its lines' parse results (`none` for a line `JSON.parse`
rejects) plus an optional stream error.  An error rejects; stream end
resolves the remembered success record or rejects with
`'Pull stream ended without a success status.'`. -/
def pullModelStream (lines : List (Option PullRecord))
    (streamError : Option String) : Except String PullRecord :=
  match streamError with
  | some e => .error e
  | none =>
      match lines.foldl pullStep none with
      | some r => .ok r
      | none => .error "Pull stream ended without a success status."

/-- Modelled from the spec: `OllamaService.pullModel`, the non-streaming
pull implementation the route handler calls, is not part of the source
tree (the service only defines `pullModelStream`).  Per the spec the
streaming path is authoritative and the non-streaming call reports the
same terminal outcome, so it is modelled as the stream semantics. -/
def pullModel (lines : List (Option PullRecord))
    (streamError : Option String) : Except String PullRecord :=
  pullModelStream lines streamError

/-- The route's first step: `INSERT INTO ollama_models (id, instance_id,
name, status) VALUES (?, ?, ?, 'downloading')`. -/
def insertDownloadingModel (db : Store) (modelId iid modelName : String) :
    Store :=
  { db with ollama_models := db.ollama_models ++
      [⟨modelId, iid, modelName, "downloading", none, none, none⟩] }

/-- The route's second step: on success `UPDATE ... SET status='ready',
size=?, modified_at=?, digest=?`; on failure `UPDATE ... SET
status='failed'`. -/
def setModelResult (db : Store) (modelId : String)
    (outcome : Except String PullRecord) : Store :=
  match outcome with
  | .ok r =>
      { db with ollama_models := db.ollama_models.map (fun m =>
          if m.id == modelId then
            { m with
              status := "ready"
              size := r.size
              digest := r.digest
              modified_at := r.modified_at }
          else m) }
  | .error _ =>
      { db with ollama_models := db.ollama_models.map (fun m =>
          if m.id == modelId then { m with status := "failed" } else m) }

/-- Embedding of the pull handler `router.post('/:id/models')`: 400
without a model name, 404 without the instance, otherwise insert the
downloading record, run the pull, and record the outcome. -/
def pullModelHandler (db : Store) (iid : String) (modelName : Option String)
    (modelId : String) (lines : List (Option PullRecord))
    (streamError : Option String) : Store × Nat :=
  match modelName with
  | none => (db, 400)
  | some mn =>
      if mn = "" then (db, 400)
      else
        match db.ollama_instances.find? (fun r => r.id == iid) with
        | none => (db, 404)
        | some _ =>
            match pullModel lines streamError with
            | .ok r =>
                (setModelResult (insertDownloadingModel db modelId iid mn)
                  modelId (.ok r), 200)
            | .error e =>
                (setModelResult (insertDownloadingModel db modelId iid mn)
                  modelId (.error e), 500)

theorem pullFold_status (lines : List (Option PullRecord))
    (acc : Option PullRecord)
    (hacc : ∀ r, acc = some r → r.status = "success") :
    ∀ r, lines.foldl pullStep acc = some r → r.status = "success" := by
  induction lines generalizing acc with
  | nil => exact hacc
  | cons l rest ih =>
      rw [List.foldl_cons]
      apply ih
      intro r hr
      rcases l with _ | q
      · exact hacc r hr
      · simp only [pullStep] at hr
        by_cases hq : (q.status == "success") = true
        · rw [if_pos hq] at hr
          injection hr with hr
          subst hr
          simpa using hq
        · rw [if_neg hq] at hr
          exact hacc r hr

theorem pullFold_no_success (lines : List (Option PullRecord))
    (acc : Option PullRecord)
    (h : ∀ rec : PullRecord, some rec ∈ lines → rec.status ≠ "success") :
    lines.foldl pullStep acc = acc := by
  induction lines generalizing acc with
  | nil => rfl
  | cons l rest ih =>
      rw [List.foldl_cons]
      have hstep : pullStep acc l = acc := by
        rcases l with _ | q
        · rfl
        · simp only [pullStep]
          rw [if_neg]
          intro hq
          exact h q (by simp) (by simpa using hq)
      rw [hstep]
      exact ih acc (fun rec hrec => h rec (by simp [hrec]))

end VllmManager

namespace VllmManager

theorem map_eq_self_of_eq {α : Type} (l : List α) (f : α → α)
    (h : ∀ a ∈ l, f a = a) : l.map f = l := by
  induction l with
  | nil => rfl
  | cons a rest ih =>
      rw [List.map_cons, h a (by simp), ih (fun b hb => h b (by simp [hb]))]

theorem setModelResult_models (db : Store) (modelId iid mn : String)
    (hid : ∀ m ∈ db.ollama_models, (m.id == modelId) = false) :
    (∀ r : PullRecord,
      (setModelResult (insertDownloadingModel db modelId iid mn) modelId
        (.ok r)).ollama_models
        = db.ollama_models ++
          [⟨modelId, iid, mn, "ready", r.size, r.digest, r.modified_at⟩]) ∧
    (∀ e : String,
      (setModelResult (insertDownloadingModel db modelId iid mn) modelId
        (.error e)).ollama_models
        = db.ollama_models ++
          [⟨modelId, iid, mn, "failed", none, none, none⟩]) := by
  constructor
  · intro r
    show ((db.ollama_models ++
        ([⟨modelId, iid, mn, "downloading", none, none, none⟩] :
          List ModelRow)).map _)
      = _
    rw [List.map_append]
    congr 1
    · apply map_eq_self_of_eq
      intro m hm
      simp [hid m hm]
    · simp
  · intro e
    show ((db.ollama_models ++
        ([⟨modelId, iid, mn, "downloading", none, none, none⟩] :
          List ModelRow)).map _)
      = _
    rw [List.map_append]
    congr 1
    · apply map_eq_self_of_eq
      intro m hm
      simp [hid m hm]
    · simp

theorem pullModelHandler_eq (db : Store) (iid mn modelId : String)
    (lines : List (Option PullRecord)) (streamError : Option String)
    (inst : OllamaRow) (hmn : mn ≠ "")
    (hfind : db.ollama_instances.find? (fun r => r.id == iid) = some inst) :
    pullModelHandler db iid (some mn) modelId lines streamError
      = match pullModel lines streamError with
        | .ok r =>
            (setModelResult (insertDownloadingModel db modelId iid mn)
              modelId (.ok r), 200)
        | .error e =>
            (setModelResult (insertDownloadingModel db modelId iid mn)
              modelId (.error e), 500) := by
  simp only [pullModelHandler]
  rw [if_neg hmn, hfind]

/-- Claim C9: against an existing Ollama instance, the pull handler
first inserts a Model Record with status `downloading`; if the stream
delivers a terminal success record the record is updated to `ready`
with the record's size and digest (and modified time); if the upstream
call errors the record is updated to `failed`; and a stream that ends
without any success record is itself an error (so it also lands in
`failed`). -/
theorem pullModelHandler_spec (db : Store) (iid mn modelId : String)
    (lines : List (Option PullRecord)) (streamError : Option String)
    (inst : OllamaRow) (hmn : mn ≠ "")
    (hfind : db.ollama_instances.find? (fun r => r.id == iid) = some inst)
    (hid : ∀ m ∈ db.ollama_models, (m.id == modelId) = false) :
    ((insertDownloadingModel db modelId iid mn).ollama_models
        = db.ollama_models ++
          [⟨modelId, iid, mn, "downloading", none, none, none⟩]) ∧
    (∀ r, pullModel lines streamError = .ok r →
      r.status = "success" ∧
      (pullModelHandler db iid (some mn) modelId lines
          streamError).1.ollama_models
        = db.ollama_models ++
          [⟨modelId, iid, mn, "ready", r.size, r.digest, r.modified_at⟩] ∧
      (pullModelHandler db iid (some mn) modelId lines streamError).2
        = 200) ∧
    (∀ e, pullModel lines streamError = .error e →
      (pullModelHandler db iid (some mn) modelId lines
          streamError).1.ollama_models
        = db.ollama_models ++
          [⟨modelId, iid, mn, "failed", none, none, none⟩] ∧
      (pullModelHandler db iid (some mn) modelId lines streamError).2
        = 500) ∧
    (streamError = none →
      (∀ rec : PullRecord, some rec ∈ lines → rec.status ≠ "success") →
      pullModel lines streamError
        = .error "Pull stream ended without a success status.") := by
  refine ⟨rfl, ?_, ?_, ?_⟩
  · intro r hr
    refine ⟨?_, ?_, ?_⟩
    · unfold pullModel pullModelStream at hr
      rcases streamError with _ | e
      · rcases hfold : lines.foldl pullStep none with _ | r'
        · rw [hfold] at hr
          cases hr
        · rw [hfold] at hr
          injection hr with hr
          subst hr
          exact pullFold_status lines none (fun r h => by cases h) r' hfold
      · cases hr
    · rw [pullModelHandler_eq db iid mn modelId lines streamError inst hmn hfind,
        hr]
      exact (setModelResult_models db modelId iid mn hid).1 r
    · rw [pullModelHandler_eq db iid mn modelId lines streamError inst hmn hfind,
        hr]
  · intro e he
    constructor
    · rw [pullModelHandler_eq db iid mn modelId lines streamError inst hmn hfind,
        he]
      exact (setModelResult_models db modelId iid mn hid).2 e
    · rw [pullModelHandler_eq db iid mn modelId lines streamError inst hmn hfind,
        he]
  · intro hse hnone
    subst hse
    unfold pullModel pullModelStream
    rw [pullFold_no_success lines none hnone]

end VllmManager

namespace VllmManager

/-- Witness for C9: a one-line stream carrying a success record lands
the record in `ready` with its size and digest; an empty stream (no
success frame) lands it in `failed`. -/
theorem pullModelHandler_spec_witness :
    ((pullModelHandler
        ⟨[], [⟨"o1", "ol", 8005, some "c1", "running", none⟩], [], []⟩
        "o1" (some "m:1") "mid"
        [some ⟨"success", some 42, some "sha", some "t"⟩]
        none).1.ollama_models
      = [⟨"mid", "o1", "m:1", "ready", some 42, some "sha", some "t"⟩]) ∧
    ((pullModelHandler
        ⟨[], [⟨"o1", "ol", 8005, some "c1", "running", none⟩], [], []⟩
        "o1" (some "m:1") "mid" [] none).1.ollama_models
      = [⟨"mid", "o1", "m:1", "failed", none, none, none⟩]) :=
  ⟨((pullModelHandler_spec
      ⟨[], [⟨"o1", "ol", 8005, some "c1", "running", none⟩], [], []⟩
      "o1" "m:1" "mid" [some ⟨"success", some 42, some "sha", some "t"⟩]
      none ⟨"o1", "ol", 8005, some "c1", "running", none⟩
      (by decide) rfl
      (by intro m hm; exact absurd hm (List.not_mem_nil m))).2.1
      ⟨"success", some 42, some "sha", some "t"⟩ rfl).2.1,
   ((pullModelHandler_spec
      ⟨[], [⟨"o1", "ol", 8005, some "c1", "running", none⟩], [], []⟩
      "o1" "m:1" "mid" [] none ⟨"o1", "ol", 8005, some "c1", "running", none⟩
      (by decide) rfl
      (by intro m hm; exact absurd hm (List.not_mem_nil m))).2.2.1
      "Pull stream ended without a success status." rfl).1⟩

end VllmManager
